import Mathlib

/-!
Verification development for the NestJS + Next.js API-proxy repository.

The development shallowly embeds the authentication core of the repository:

* backend token rotation (`src/backend/src/auth/auth.service.ts`,
  `validateRefreshTokenLogic`, `rotateTokens`, `generateNewAccessOnly`, and
  the `/auth/refresh` controller in `auth.controller.ts`);
* the session-cookie codec (`src/frontend/lib/session.ts`, `encrypt`/`decrypt`
  over a jose HS256 JWT, modelled with an ideal unforgeable MAC);
* the proxy forwarding pipeline
  (`src/frontend/app/api/(api-proxy)/[...path]/route.ts` together with
  `src/frontend/lib/proxy-utils.ts`): buffered forwarding with retry and
  timeout, the streaming-upload branch, token refresh on 401, the
  sign-in/sign-out special cases and the binary-response classifier.

Pure functions of the source become Lean functions; database updates become
explicit list transformations; backend I/O becomes explicit outcome
parameters (oracles); timestamps are `Nat` milliseconds since the epoch.
-/

set_option autoImplicit false

namespace ApiProxy

/-! ### Backend data model (`auth.schema.ts`, table `sessions`)

One row of the `sessions` table.  The drizzle schema stores timestamps; they
are modelled as `Nat` milliseconds.  `previousRefreshToken` and
`previousRefreshTokenExpiresAt` are nullable columns, hence `Option`.
-/

structure TokenRecord where
  userId : String
  accessToken : String
  refreshToken : String
  previousRefreshToken : Option String
  previousRefreshTokenExpiresAt : Option Nat
  expiresAt : Nat
  userAgent : String
  ipAddress : String
  updatedAt : Nat
  deriving Repr, DecidableEq

/-- Constant `GRACE_PERIOD_MS = 20 * 1000` from `auth.service.ts`. -/
def GRACE_PERIOD_MS : Nat := 20 * 1000

/-- Constant `REFRESH_TOKEN_SHORT_EXPIRATION_TIME = 24 * 60 * 60 * 1000` from
`auth.service.ts`. -/
def REFRESH_TOKEN_SHORT_EXPIRATION_TIME : Nat := 24 * 60 * 60 * 1000

/-- The `UnauthorizedException` messages thrown by
`validateRefreshTokenLogic`. -/
inductive AuthError where
  | userNotFound
  | tokenNotFound
  | tokenExpiredOrReused
  deriving Repr, DecidableEq

/-- The value `validateRefreshTokenLogic` resolves with: the matched session
record plus the grace-period flag handed to the controller. -/
structure ValidateOk where
  tokenRecord : TokenRecord
  isGracePeriod : Bool
  deriving Repr, DecidableEq

/-- The predicate of the in-memory `tokenRecords.find` in
`validateRefreshTokenLogic`:
`t.refreshToken === T || t.previousRefreshToken === T`.
(In JS a `null` column never equals a string, which `Option.some` captures.) -/
def refreshMatch (incomingRefreshToken : String) (t : TokenRecord) : Bool :=
  t.refreshToken == incomingRefreshToken ||
    t.previousRefreshToken == some incomingRefreshToken

/-- The JS guard
`record.previousRefreshTokenExpiresAt && record.previousRefreshTokenExpiresAt > now`:
a `null` expiry is falsy, otherwise compare with the current time. -/
def graceWindowOpen (expiry : Option Nat) (now : Nat) : Bool :=
  match expiry with
  | none => false
  | some e => now < e

/-- Model of `AuthService.validateRefreshTokenLogic` (`auth.service.ts`).

`userExists` models the `findUserById` lookup; `tokenRecords` is the result
of `select … where userId = userId` (the caller passes the rows of this
user); `now` is `new Date()`.  Case A returns the record with
`isGracePeriod = false`; case B returns it with `isGracePeriod = true` when
the incoming token equals the stored `previousRefreshToken` and the grace
window is still open; case C throws `Token expired or reused`.
The function only reads the store; it performs no update or delete. -/
def validateRefreshTokenLogic (userExists : Bool) (tokenRecords : List TokenRecord)
    (incomingRefreshToken : String) (now : Nat) : Except AuthError ValidateOk :=
  if !userExists then
    .error .userNotFound
  else
    match tokenRecords.find? (refreshMatch incomingRefreshToken) with
    | none => .error .tokenNotFound
    | some record =>
      if record.refreshToken == incomingRefreshToken then
        .ok ⟨record, false⟩
      else if record.previousRefreshToken == some incomingRefreshToken &&
          graceWindowOpen record.previousRefreshTokenExpiresAt now then
        .ok ⟨record, true⟩
      else
        .error .tokenExpiredOrReused

/-- The drizzle update of `AuthService.generateNewAccessOnly`:
`set { accessToken, userAgent, ipAddress, updatedAt } where userId = … and
refreshToken = …`.  All other columns of the matched row, and all other
rows, are untouched. -/
def generateNewAccessOnlyDb (db : List TokenRecord) (userId newAccessToken userAgent
    ipAddress refreshToken : String) (now : Nat) : List TokenRecord :=
  db.map fun t =>
    if t.userId == userId && t.refreshToken == refreshToken then
      { t with accessToken := newAccessToken, userAgent := userAgent,
               ipAddress := ipAddress, updatedAt := now }
    else t

/-- The drizzle update of `AuthService.rotateTokens`: the matched row gets
the fresh pair, `previousRefreshToken := currentRefreshToken`,
`previousRefreshTokenExpiresAt := now + GRACE_PERIOD_MS` and a new
`expiresAt` depending on `rememberMe` (`refreshExpirationMs` models
`JWT_REFRESH_TOKEN_EXPIRATION_TIME * 1000`). -/
def rotateTokensDb (db : List TokenRecord) (userId newAccessToken newRefreshToken
    currentRefreshToken userAgent ipAddress : String) (rememberMe : Bool)
    (refreshExpirationMs : Nat) (now : Nat) : List TokenRecord :=
  db.map fun t =>
    if t.userId == userId && t.refreshToken == currentRefreshToken then
      { t with accessToken := newAccessToken, refreshToken := newRefreshToken,
               previousRefreshToken := some currentRefreshToken,
               previousRefreshTokenExpiresAt := some (now + GRACE_PERIOD_MS),
               expiresAt := if rememberMe then now + refreshExpirationMs
                            else now + REFRESH_TOKEN_SHORT_EXPIRATION_TIME,
               userAgent := userAgent, ipAddress := ipAddress, updatedAt := now }
    else t

/-- Body of the `/auth/refresh` response
(`{ access_token, refresh_token }` in `auth.controller.ts`). -/
structure RefreshTokensResponse where
  access_token : String
  refresh_token : String
  deriving Repr, DecidableEq

/-- Model of `AuthController.refreshTokens` composed with the `jwt-refresh` guard.

The guard runs `validateRefreshTokenLogic` on the rows of `userId`; on
failure the `UnauthorizedException` propagates and the store is untouched.
On a grace-period hit the controller answers with a fresh access token
(`generateNewAccessOnly`) and echoes the record's current `refreshToken`;
otherwise it rotates (`rotateTokens`) and answers with the fresh pair.
`newAccessToken`/`newRefreshToken` model the freshly signed JWTs. -/
def refreshEndpoint (userExists : Bool) (db : List TokenRecord)
    (userId incomingRefreshToken userAgent ipAddress : String) (rememberMe : Bool)
    (newAccessToken newRefreshToken : String) (refreshExpirationMs : Nat)
    (now : Nat) : Except AuthError RefreshTokensResponse × List TokenRecord :=
  match validateRefreshTokenLogic userExists
      (db.filter fun t => t.userId == userId) incomingRefreshToken now with
  | .error e => (.error e, db)
  | .ok v =>
    if v.isGracePeriod then
      (.ok ⟨newAccessToken, v.tokenRecord.refreshToken⟩,
        generateNewAccessOnlyDb db userId newAccessToken userAgent ipAddress
          v.tokenRecord.refreshToken now)
    else
      (.ok ⟨newAccessToken, newRefreshToken⟩,
        rotateTokensDb db userId newAccessToken newRefreshToken
          v.tokenRecord.refreshToken userAgent ipAddress rememberMe
          refreshExpirationMs now)

/-! ### Session cookie codec (`src/frontend/lib/session.ts`)

`encrypt` signs the session envelope as an HS256 JWT whose expiry is
`rememberMe ? now + SESSION_EXPIRES_IN : now + 1h`; `decrypt` runs
`jwtVerify` inside a `try`/`catch` and returns `undefined` on any
verification failure, so it is total and never throws.  The HS256 MAC is
modelled ideally: a well-formed token records the key it was signed with,
and verification succeeds exactly when that key equals the verifier's key
and the token is not expired; any tampering (payload, expiry or signature)
yields either a `malformed` token or a wrong-key token. -/

/-- The `SessionPayload` interface from `session.ts` (the JWT registered
claims `iat`/`exp` live on the token, not in this envelope). -/
structure SessionPayload where
  id : String
  email : String
  firstName : String
  lastName : String
  createdAt : Option String
  updatedAt : Option String
  accessToken : String
  refreshToken : String
  rememberMe : Bool
  deriving Repr, DecidableEq

/-- Constant `SESSION_EXPIRES_IN = 7 * 24 * 60 * 60 * 1000` from `config.ts`. -/
def SESSION_EXPIRES_IN : Nat := 7 * 24 * 60 * 60 * 1000

/-- A client-held cookie value: either an HS256 JWT (payload, issued-at,
expiry, signing key) or a string that does not parse as a JWT at all. -/
inductive SessionToken where
  | signed (payload : SessionPayload) (iat : Nat) (exp : Nat) (key : String)
  | malformed (raw : String)
  deriving Repr, DecidableEq

/-- The TTL picked by `encrypt`'s `setExpirationTime`:
`payload.rememberMe ? SESSION_EXPIRES_IN : 60 * 60 * 1000`. -/
def sessionTtl (rememberMe : Bool) : Nat :=
  if rememberMe then SESSION_EXPIRES_IN else 60 * 60 * 1000

/-- Model of `encrypt` from `session.ts`: sign the whole envelope with the process
key, `setIssuedAt` (now) and the remember-me dependent expiry. -/
def sessionEncrypt (key : String) (payload : SessionPayload) (now : Nat) : SessionToken :=
  .signed payload now (now + sessionTtl payload.rememberMe) key

/-- Model of `decrypt` from `session.ts`: `jwtVerify` checks the HS256 signature and
the `exp` claim (jose rejects a token whose `exp` is not in the future);
the surrounding `try`/`catch` turns every failure into `none`. -/
def sessionDecrypt (key : String) (token : SessionToken) (now : Nat) : Option SessionPayload :=
  match token with
  | .malformed _ => none
  | .signed payload _ exp k =>
    if k == key && now < exp then some payload else none

/-! ### Proxy HTTP primitives (`src/frontend/lib/proxy-utils.ts`)

A backend `Response` is modelled by its status, its header list (lowercase
names, first entry wins as in `Headers.get`) and its body; for a streaming
response the `body` value stands for the byte stream that is piped through.
-/

/-- A backend HTTP response as seen by the proxy. -/
structure BackendResponse where
  status : Nat
  headers : List (String × String)
  body : String
  deriving Repr, DecidableEq

/-- Tests that `pat` matches at the head of `l` (over characters). -/
def charsLeadWith : List Char → List Char → Bool
  | [], _ => true
  | _ :: _, [] => false
  | p :: ps, c :: cs => p == c && charsLeadWith ps cs

/-- Tests that `pat` occurs contiguously somewhere in `l` (over characters). -/
def charsContain : List Char → List Char → Bool
  | pat, [] => pat.isEmpty
  | pat, c :: cs => charsLeadWith pat (c :: cs) || charsContain pat cs

/-- JS `String.prototype.includes` (substring test), over the character
lists of the two strings. -/
def jsIncludes (s pat : String) : Bool :=
  charsContain pat.toList s.toList

/-- Model of `Headers.get`: first header with the given (lowercase) name. -/
def headersGet (hs : List (String × String)) (name : String) : Option String :=
  (hs.find? fun h => h.1 == name).map (·.2)

/-- Model of `Headers.delete`: drop every header with the given name. -/
def headersDelete (hs : List (String × String)) (name : String) : List (String × String) :=
  hs.filter fun h => h.1 != name

/-- Model of `createNextResponse` from `proxy-utils.ts`: copy status and headers,
delete `content-length`, `content-encoding` and `transfer-encoding`, and
attach the (already buffered) text body. -/
def createNextResponse (response : BackendResponse) (body : String) : BackendResponse :=
  { status := response.status,
    headers := headersDelete (headersDelete (headersDelete response.headers
      "content-length") "content-encoding") "transfer-encoding",
    body := body }

/-- Model of `createStreamingResponse` from `proxy-utils.ts` (lines 50–58): copy the
headers with `new Headers(response.headers)` — nothing is deleted — and
pipe `response.body` through. -/
def createStreamingResponse (response : BackendResponse) : BackendResponse :=
  { status := response.status,
    headers := response.headers,
    body := response.body }

/-- The binary/streaming classifier of `handleRequest` (route.ts lines
446–455): content-type contains one of the binary markers, or
content-disposition contains `attachment` (an absent header is falsy). -/
def isBinaryResponse (response : BackendResponse) : Bool :=
  let responseContentType := (headersGet response.headers "content-type").getD ""
  jsIncludes responseContentType "application/octet-stream" ||
  jsIncludes responseContentType "application/pdf" ||
  jsIncludes responseContentType "image/" ||
  jsIncludes responseContentType "video/" ||
  jsIncludes responseContentType "audio/" ||
  jsIncludes responseContentType "application/zip" ||
  (match headersGet response.headers "content-disposition" with
   | some d => jsIncludes d "attachment"
   | none => false)

/-- The tail of `handleRequest` (route.ts lines 446–464): a binary response
is streamed through `createStreamingResponse`, anything else is buffered
(`response.text()`) and re-wrapped by `createNextResponse`. -/
def respondForBackend (response : BackendResponse) : BackendResponse :=
  if isBinaryResponse response then
    createStreamingResponse response
  else
    createNextResponse response response.body

/-! ### Refresh coordinator (`proxy-utils.ts`, `refreshAccessToken`)

`refreshAccessToken` POSTs the refresh token to `/auth/refresh` and returns
the parsed `{access_token, refresh_token}` body, or `null` on a non-2xx
response or a thrown error.  The module holds **no** mutable state — in
particular no in-flight promise cache — so every invocation performs its
own backend call unconditionally (`fetch` on line 74 is not guarded by
anything). -/

/-- Parsed body of a successful `/auth/refresh` call (`RefreshResponse`
interface in `proxy-utils.ts`). -/
structure RefreshResponse where
  access_token : String
  refresh_token : String
  deriving Repr, DecidableEq

/-- The process-wide state visible to `refreshAccessToken`.  The source
module defines no module-level variable, so the only component is the
instrumentation counter of backend refresh calls performed so far. -/
structure RefreshProcessState where
  backendRefreshCalls : Nat
  deriving Repr, DecidableEq

/-- Model of `refreshAccessToken` from `proxy-utils.ts` (lines 67–96): perform one
backend call whose outcome is `backendOutcome` (`none` models a non-ok
response or a thrown network error, both of which return `null`).  There is
no deduplication: the call happens on every invocation, whatever the state. -/
def refreshAccessToken (backendOutcome : Option RefreshResponse)
    (st : RefreshProcessState) : Option RefreshResponse × RefreshProcessState :=
  (backendOutcome, ⟨st.backendRefreshCalls + 1⟩)

/-- Two interleaved requests that both need a refresh, as in the spec's
concurrency scenario: each runs `refreshAccessToken`; the state returned is
the process state after both have settled. -/
def twoConcurrentRefreshes (outcome₁ outcome₂ : Option RefreshResponse)
    (st : RefreshProcessState) : RefreshProcessState :=
  let (_, st₁) := refreshAccessToken outcome₁ st
  let (_, st₂) := refreshAccessToken outcome₂ st₁
  st₂

/-! ### Buffered forwarding with retry (route.ts, `forwardRequestWithRetry`)

Each loop iteration performs one `forwardRequest` bounded by an
`AbortController` timeout of `timeoutMs`.  A response with status `< 500`
is returned at once; a 5xx response or a thrown error (AbortError =
timeout, anything else = network failure) is retried while attempts remain,
sleeping `1000 * (attempt + 1)` ms before the next attempt; after the last
attempt a response is returned as-is and an error is re-thrown
(`throw lastError`). -/

/-- Outcome of one `forwardRequest` attempt. -/
inductive AttemptOutcome where
  | response (r : BackendResponse)
  | timeoutErr
  | networkErr
  deriving Repr, DecidableEq

/-- Result of `forwardRequestWithRetry`: a returned response, or the
re-thrown last error (tagged with whether it was an AbortError). -/
inductive ForwardResult where
  | ok (r : BackendResponse)
  | err (isTimeout : Bool)
  deriving Repr, DecidableEq

/-- Default `retries` parameter of `forwardRequestWithRetry`. -/
def DEFAULT_RETRIES : Nat := 2

/-- Default `timeoutMs` parameter of `forwardRequestWithRetry`. -/
def DEFAULT_TIMEOUT_MS : Nat := 30000

/-- Trace of one `forwardRequestWithRetry` run: the result, the timeout
bound passed to each attempt actually made (one entry per attempt), and
the backoff delays slept between attempts. -/
structure RetryRun where
  result : ForwardResult
  timeouts : List Nat
  delays : List Nat
  deriving Repr, DecidableEq

/-- The `for (let attempt = 0; attempt <= retries; attempt++)` loop of
`forwardRequestWithRetry`.  `oracle n` is the outcome of the attempt with
index `n`; `remaining` counts the attempts still allowed after the current
one (`retries - attempt`). -/
def retryLoop (oracle : Nat → AttemptOutcome) (timeoutMs : Nat) :
    Nat → Nat → RetryRun
  | attempt, 0 =>
    match oracle attempt with
    | .response r => ⟨.ok r, [timeoutMs], []⟩
    | .timeoutErr => ⟨.err true, [timeoutMs], []⟩
    | .networkErr => ⟨.err false, [timeoutMs], []⟩
  | attempt, n + 1 =>
    match oracle attempt with
    | .response r =>
      if r.status < 500 then ⟨.ok r, [timeoutMs], []⟩
      else
        let rest := retryLoop oracle timeoutMs (attempt + 1) n
        ⟨rest.result, timeoutMs :: rest.timeouts, 1000 * (attempt + 1) :: rest.delays⟩
    | _ =>
      let rest := retryLoop oracle timeoutMs (attempt + 1) n
      ⟨rest.result, timeoutMs :: rest.timeouts, 1000 * (attempt + 1) :: rest.delays⟩

/-- Model of `forwardRequestWithRetry` with its default parameters
(`retries = 2`, `timeoutMs = 30000`). -/
def forwardRequestWithRetry (oracle : Nat → AttemptOutcome) : RetryRun :=
  retryLoop oracle DEFAULT_TIMEOUT_MS 0 DEFAULT_RETRIES

/-! ### The main proxy pipeline (route.ts, `handleRequest`) -/

/-- Constant `SIGN_IN_ENDPOINT` from `config.ts`. -/
def SIGN_IN_ENDPOINT : String := "/auth/sign-in"

/-- Constant `SIGN_OUT_ENDPOINT` from `config.ts`. -/
def SIGN_OUT_ENDPOINT : String := "/auth/sign-out"

/-- Path reconstruction of `handleRequest`: the slash-joined segment list
with a leading slash. -/
def fullPathOf (pathSegments : List String) : String :=
  "/" ++ String.intercalate "/" pathSegments

/-- Model of `Response.ok`: status in the range 200–299. -/
def responseOk (status : Nat) : Bool :=
  200 ≤ status && status ≤ 299

/-- The observable outcome of one `handleRequest` invocation: the response
handed to the client (status, headers, body, and the error `code` field
when the body was produced by `createErrorResponse`/`NextResponse.json`),
the cookie effects on that response, and instrumentation counters: how many
forward operations (`forwardRequestWithRetry`/`forwardRequestStreaming`
invocations) and backend refresh calls the request performed. -/
structure ProxyResult where
  status : Nat
  headers : List (String × String)
  body : String
  errorCode : Option String
  cookieDeleted : Bool
  sessionRewritten : Bool
  forwardCalls : Nat
  refreshCalls : Nat
  deriving Repr, DecidableEq

/-- A `createErrorResponse`/`NextResponse.json` error answer: JSON body,
the given status, no cookie change (cookie effects are set by the caller). -/
def jsonErrorResult (code : String) (status forwardCalls refreshCalls : Nat)
    (cookieDeleted : Bool) : ProxyResult :=
  { status := status,
    headers := [("content-type", "application/json")],
    body := "",
    errorCode := some code,
    cookieDeleted := cookieDeleted,
    sessionRewritten := false,
    forwardCalls := forwardCalls,
    refreshCalls := refreshCalls }

/-- The streaming branch of `handleRequest` (route.ts lines 367–404),
entered for `multipart/form-data` or `application/octet-stream` uploads.

`hasSession` models `sessionPayload && refreshToken` being truthy;
`refreshOutcome` is the outcome of the `refreshAccessToken` call made when
the backend answered 401.  On 401 with a session the proxy refreshes once:
a failed refresh yields the `TOKEN_REFRESH_FAILED` 401 with the session
cookie deleted; a successful refresh cannot replay the consumed stream and
yields the `UPLOAD_AUTH_EXPIRED` 401.  Any other response is piped through
by `createStreamingResponse`.  The streaming forward itself runs exactly
once. -/
def handleStreamingRequest (streamResponse : BackendResponse) (hasSession : Bool)
    (refreshOutcome : Option RefreshResponse) : ProxyResult :=
  if streamResponse.status == 401 && hasSession then
    match refreshOutcome with
    | none => jsonErrorResult "TOKEN_REFRESH_FAILED" 401 1 1 true
    | some _ => jsonErrorResult "UPLOAD_AUTH_EXPIRED" 401 1 1 false
  else
    { status := streamResponse.status,
      headers := streamResponse.headers,
      body := streamResponse.body,
      errorCode := none,
      cookieDeleted := false,
      sessionRewritten := false,
      forwardCalls := 1,
      refreshCalls := 0 }

/-- Model of `handleTokenRefresh` (route.ts lines 202–256), already knowing the
outcome of its `refreshAccessToken` call and, when the refresh succeeded,
the outcome oracle of the retried `forwardRequestWithRetry`.

A failed refresh produces the `TOKEN_REFRESH_FAILED` 401 and deletes the
session cookie.  After a successful refresh the original request is
retried; a thrown retry becomes the `RETRY_FAILED` 502; a returned retry
response is re-wrapped by `createNextResponse` and the session cookie is
rewritten with the fresh token pair. -/
def handleTokenRefresh (refreshOutcome : Option RefreshResponse)
    (retryOracle : Nat → AttemptOutcome) : ProxyResult :=
  match refreshOutcome with
  | none => jsonErrorResult "TOKEN_REFRESH_FAILED" 401 1 1 true
  | some _ =>
    match (forwardRequestWithRetry retryOracle).result with
    | .err _ => jsonErrorResult "RETRY_FAILED" 502 2 1 false
    | .ok r =>
      let wrapped := createNextResponse r r.body
      { status := wrapped.status,
        headers := wrapped.headers,
        body := wrapped.body,
        errorCode := none,
        cookieDeleted := false,
        sessionRewritten := true,
        forwardCalls := 2,
        refreshCalls := 1 }

/-- The special-path and classification tail of `handleRequest` (route.ts
lines 433–464), applied to the current response `cur`.

* sign-in path with an ok response: `handleSignIn` — an unparseable JSON
  body is the `INVALID_AUTH_RESPONSE` 502, a body missing a required field
  is the `INVALID_AUTH_DATA` 502 (both are fresh responses, dropping any
  cookie mutation carried so far), otherwise the response is re-wrapped and
  a new session cookie is installed;
* sign-out path with an ok response: `handleSignOut` — re-wrap and delete
  the session cookie;
* anything else: binary responses are streamed through unchanged, text
  responses are re-wrapped by `createNextResponse`. -/
def applyProxyTail (fullPath : String) (cur : ProxyResult)
    (signInParseOk signInFieldsOk : Bool) : ProxyResult :=
  if fullPath == SIGN_IN_ENDPOINT && responseOk cur.status then
    if !signInParseOk then
      jsonErrorResult "INVALID_AUTH_RESPONSE" 502 cur.forwardCalls cur.refreshCalls false
    else if !signInFieldsOk then
      jsonErrorResult "INVALID_AUTH_DATA" 502 cur.forwardCalls cur.refreshCalls false
    else
      let wrapped := createNextResponse ⟨cur.status, cur.headers, cur.body⟩ cur.body
      { cur with headers := wrapped.headers, sessionRewritten := true }
  else if fullPath == SIGN_OUT_ENDPOINT && responseOk cur.status then
    let wrapped := createNextResponse ⟨cur.status, cur.headers, cur.body⟩ cur.body
    { cur with headers := wrapped.headers, cookieDeleted := true }
  else
    let wrapped := respondForBackend ⟨cur.status, cur.headers, cur.body⟩
    { cur with headers := wrapped.headers, body := wrapped.body }

/-- The buffered branch of `handleRequest` (route.ts lines 406–481), for a
request that is not a streaming upload.

`oracle₁` drives the attempts of the first `forwardRequestWithRetry`;
on a 401 with a session, `handleTokenRefresh` runs with `refreshOutcome`
and `oracle₂`; a thrown first forward is caught at the bottom of
`handleRequest` and surfaces as `GATEWAY_TIMEOUT` 504 (AbortError) or
`BAD_GATEWAY` 502.  The surviving response then flows through
`applyProxyTail`. -/
def handleRequestBuffered (pathSegments : List String) (hasSession : Bool)
    (oracle₁ : Nat → AttemptOutcome) (refreshOutcome : Option RefreshResponse)
    (oracle₂ : Nat → AttemptOutcome) (signInParseOk signInFieldsOk : Bool) :
    ProxyResult :=
  let fullPath := fullPathOf pathSegments
  match (forwardRequestWithRetry oracle₁).result with
  | .err isTimeout =>
    if isTimeout then jsonErrorResult "GATEWAY_TIMEOUT" 504 1 0 false
    else jsonErrorResult "BAD_GATEWAY" 502 1 0 false
  | .ok response =>
    let cur : ProxyResult :=
      if response.status == 401 && hasSession then
        handleTokenRefresh refreshOutcome oracle₂
      else
        { status := response.status,
          headers := response.headers,
          body := response.body,
          errorCode := none,
          cookieDeleted := false,
          sessionRewritten := false,
          forwardCalls := 1,
          refreshCalls := 0 }
    applyProxyTail fullPath cur signInParseOk signInFieldsOk

/-! ### Theorems -/

/-- Claim C7: decrypting an encrypted session envelope before its expiry
yields the original envelope, and `decrypt` of a malformed token, a token
signed under a different key (tampering), or an expired token is `none`
(`decrypt` is a total function into `Option`, so it never throws). -/
theorem session_roundtrip_and_fail_closed (key : String) (payload : SessionPayload)
    (now t : Nat) :
    (t < now + sessionTtl payload.rememberMe →
      sessionDecrypt key (sessionEncrypt key payload now) t = some payload) ∧
    (∀ raw, sessionDecrypt key (.malformed raw) t = none) ∧
    (∀ p iat exp k, k ≠ key → sessionDecrypt key (.signed p iat exp k) t = none) ∧
    (∀ p iat exp k, exp ≤ t → sessionDecrypt key (.signed p iat exp k) t = none) := by
  refine ⟨fun h => ?_, fun raw => rfl, fun p iat exp k hk => ?_, fun p iat exp k he => ?_⟩
  · simp [sessionDecrypt, sessionEncrypt, h]
  · simp [sessionDecrypt, hk]
  · simp [sessionDecrypt, Nat.not_lt.mpr he]

/-- Witness for C7 at a concrete envelope, key and clock. -/
theorem session_roundtrip_and_fail_closed_witness :
    sessionDecrypt "0123456789abcdef0123456789abcdef"
      (sessionEncrypt "0123456789abcdef0123456789abcdef"
        ⟨"u1", "a@b.com", "A", "B", none, none, "AT1", "RT1", true⟩ 0) 1000 =
      some ⟨"u1", "a@b.com", "A", "B", none, none, "AT1", "RT1", true⟩ ∧
    sessionDecrypt "0123456789abcdef0123456789abcdef" (.malformed "garbage") 1000 = none ∧
    sessionDecrypt "0123456789abcdef0123456789abcdef"
      (.signed ⟨"u1", "a@b.com", "A", "B", none, none, "AT1", "RT1", true⟩ 0 5000 "wrong-key")
      1000 = none ∧
    sessionDecrypt "0123456789abcdef0123456789abcdef"
      (.signed ⟨"u1", "a@b.com", "A", "B", none, none, "AT1", "RT1", true⟩ 0 900 "0123456789abcdef0123456789abcdef")
      1000 = none := by
  have h := session_roundtrip_and_fail_closed "0123456789abcdef0123456789abcdef"
    ⟨"u1", "a@b.com", "A", "B", none, none, "AT1", "RT1", true⟩ 0 1000
  exact ⟨h.1 (by decide), h.2.1 "garbage",
    h.2.2.1 _ 0 5000 "wrong-key" (by decide),
    h.2.2.2 _ 0 900 _ (by decide)⟩

/-- The updates of `generateNewAccessOnlyDb` change no token column. -/
theorem generateNewAccessOnlyDb_tokens_unchanged (db : List TokenRecord)
    (userId newAccessToken userAgent ipAddress refreshToken : String) (now : Nat) :
    (generateNewAccessOnlyDb db userId newAccessToken userAgent ipAddress
        refreshToken now).map
      (fun t => (t.refreshToken, t.previousRefreshToken, t.previousRefreshTokenExpiresAt)) =
    db.map
      (fun t => (t.refreshToken, t.previousRefreshToken, t.previousRefreshTokenExpiresAt)) := by
  unfold generateNewAccessOnlyDb
  rw [List.map_map]
  refine List.map_congr_left fun t _ => ?_
  simp only [Function.comp]
  split <;> rfl

/-- Claim C1: when the incoming refresh token `T` is a record's
`previousRefreshToken` and the grace window is still open (and `T` is not
the record's current token, so the GRACE case applies), the refresh
endpoint answers with a fresh access token bound to the record's existing
`refreshToken` and echoes that same `refreshToken`; no second rotation
happens — no record's `refreshToken`, `previousRefreshToken` or
`previousRefreshTokenExpiresAt` is modified. -/
theorem refresh_grace_issues_access_only (db : List TokenRecord)
    (userId T userAgent ipAddress : String) (rememberMe : Bool)
    (newAT newRT : String) (refreshExpMs now : Nat) (r : TokenRecord) (e : Nat)
    (hfind : (db.filter fun t => t.userId == userId).find? (refreshMatch T) = some r)
    (hcur : r.refreshToken ≠ T)
    (hprev : r.previousRefreshToken = some T)
    (hexp : r.previousRefreshTokenExpiresAt = some e)
    (hnow : now < e) :
    (refreshEndpoint true db userId T userAgent ipAddress rememberMe newAT newRT
        refreshExpMs now).1 = .ok ⟨newAT, r.refreshToken⟩ ∧
    (refreshEndpoint true db userId T userAgent ipAddress rememberMe newAT newRT
        refreshExpMs now).2.map
      (fun t => (t.refreshToken, t.previousRefreshToken, t.previousRefreshTokenExpiresAt)) =
    db.map
      (fun t => (t.refreshToken, t.previousRefreshToken, t.previousRefreshTokenExpiresAt)) := by
  have hval : validateRefreshTokenLogic true (db.filter fun t => t.userId == userId)
      T now = .ok ⟨r, true⟩ := by
    unfold validateRefreshTokenLogic
    rw [hfind]
    simp [hcur, hprev, graceWindowOpen, hexp, hnow]
  unfold refreshEndpoint
  rw [hval]
  exact ⟨rfl, generateNewAccessOnlyDb_tokens_unchanged ..⟩

/-- Witness for C1: a one-record store in its grace window. -/
theorem refresh_grace_issues_access_only_witness :
    (refreshEndpoint true
        [⟨"u1", "AT1", "RT2", some "RT1", some 1000, 90000, "ua", "ip", 0⟩]
        "u1" "RT1" "ua2" "ip2" false "AT2" "RT3" 604800000 500).1 =
      .ok ⟨"AT2", "RT2"⟩ ∧
    ((refreshEndpoint true
        [⟨"u1", "AT1", "RT2", some "RT1", some 1000, 90000, "ua", "ip", 0⟩]
        "u1" "RT1" "ua2" "ip2" false "AT2" "RT3" 604800000 500).2.map
      (fun t => (t.refreshToken, t.previousRefreshToken, t.previousRefreshTokenExpiresAt)) =
      [("RT2", some "RT1", some 1000)]) := by
  have h := refresh_grace_issues_access_only
    [⟨"u1", "AT1", "RT2", some "RT1", some 1000, 90000, "ua", "ip", 0⟩]
    "u1" "RT1" "ua2" "ip2" false "AT2" "RT3" 604800000 500
    ⟨"u1", "AT1", "RT2", some "RT1", some 1000, 90000, "ua", "ip", 0⟩ 1000
    (by decide) (by decide) rfl rfl (by decide)
  exact ⟨h.1, by rw [h.2]; rfl⟩

/-- Claim C2: when the incoming token matches no record's current
`refreshToken` and opens no record's grace window (in particular when it
equals a `previousRefreshToken` whose grace window has expired), the
refresh endpoint fails with one of the unauthorized errors
(`Token not found` / `Token expired or reused`) and the session store is
returned untouched — no record is deleted. -/
theorem refresh_reuse_rejected (db : List TokenRecord)
    (userId T userAgent ipAddress : String) (rememberMe : Bool)
    (newAT newRT : String) (refreshExpMs now : Nat)
    (hrec : ∀ r ∈ db.filter fun t => t.userId == userId,
      r.refreshToken ≠ T ∧
      (r.previousRefreshToken = some T →
        graceWindowOpen r.previousRefreshTokenExpiresAt now = false)) :
    (∃ e, (refreshEndpoint true db userId T userAgent ipAddress rememberMe newAT newRT
        refreshExpMs now).1 = .error e ∧
      (e = .tokenNotFound ∨ e = .tokenExpiredOrReused)) ∧
    (refreshEndpoint true db userId T userAgent ipAddress rememberMe newAT newRT
        refreshExpMs now).2 = db := by
  unfold refreshEndpoint validateRefreshTokenLogic
  cases hfind : (db.filter fun t => t.userId == userId).find? (refreshMatch T) with
  | none => exact ⟨⟨.tokenNotFound, by simp, Or.inl rfl⟩, by simp⟩
  | some r =>
    have hmem : r ∈ db.filter fun t => t.userId == userId :=
      List.mem_of_find?_eq_some hfind
    have hmatch : refreshMatch T r = true := List.find?_some hfind
    obtain ⟨hne, hgrace⟩ := hrec r hmem
    have hcurFalse : (r.refreshToken == T) = false := by
      simpa using hne
    have hprevT : r.previousRefreshToken = some T := by
      unfold refreshMatch at hmatch
      rcases Bool.or_eq_true_iff.mp hmatch with h | h
      · exact absurd (by simpa using h) hne
      · simpa using h
    have hcond : (r.previousRefreshToken == some T &&
        graceWindowOpen r.previousRefreshTokenExpiresAt now) = false := by
      rw [hgrace hprevT, Bool.and_false]
    simp only [Bool.not_true, if_neg]
    rw [hcurFalse, hcond]
    exact ⟨⟨.tokenExpiredOrReused, by simp, Or.inr rfl⟩, by simp⟩

/-- Witness for C2: the previous token presented after its grace window has
expired. -/
theorem refresh_reuse_rejected_witness :
    (∃ e, (refreshEndpoint true
        [⟨"u1", "AT2", "RT2", some "RT1", some 1000, 90000, "ua", "ip", 0⟩]
        "u1" "RT1" "ua2" "ip2" false "AT3" "RT3" 604800000 2000).1 = .error e ∧
      (e = .tokenNotFound ∨ e = .tokenExpiredOrReused)) ∧
    (refreshEndpoint true
        [⟨"u1", "AT2", "RT2", some "RT1", some 1000, 90000, "ua", "ip", 0⟩]
        "u1" "RT1" "ua2" "ip2" false "AT3" "RT3" 604800000 2000).2 =
      [⟨"u1", "AT2", "RT2", some "RT1", some 1000, 90000, "ua", "ip", 0⟩] :=
  refresh_reuse_rejected
    [⟨"u1", "AT2", "RT2", some "RT1", some 1000, 90000, "ua", "ip", 0⟩]
    "u1" "RT1" "ua2" "ip2" false "AT3" "RT3" 604800000 2000 (by decide)

/-- The retry loop makes at most `remaining + 1` attempts. -/
theorem retryLoop_timeouts_length (oracle : Nat → AttemptOutcome) (timeoutMs : Nat) :
    ∀ remaining attempt,
      (retryLoop oracle timeoutMs attempt remaining).timeouts.length ≤ remaining + 1 := by
  intro remaining
  induction remaining with
  | zero =>
    intro attempt
    cases h : oracle attempt <;> simp [retryLoop, h]
  | succ n ih =>
    intro attempt
    cases h : oracle attempt with
    | response r =>
      by_cases hs : r.status < 500
      · simp [retryLoop, h, hs]
      · simp only [retryLoop, h, if_neg hs, List.length_cons]
        exact Nat.succ_le_succ (ih (attempt + 1))
    | timeoutErr =>
      simp only [retryLoop, h, List.length_cons]
      exact Nat.succ_le_succ (ih (attempt + 1))
    | networkErr =>
      simp only [retryLoop, h, List.length_cons]
      exact Nat.succ_le_succ (ih (attempt + 1))

/-- Every attempt of the retry loop is issued with the same timeout bound. -/
theorem retryLoop_timeouts_all (oracle : Nat → AttemptOutcome) (timeoutMs : Nat) :
    ∀ remaining attempt t,
      t ∈ (retryLoop oracle timeoutMs attempt remaining).timeouts → t = timeoutMs := by
  intro remaining
  induction remaining with
  | zero =>
    intro attempt t ht
    cases h : oracle attempt <;> simp [retryLoop, h] at ht <;> exact ht
  | succ n ih =>
    intro attempt t ht
    cases h : oracle attempt with
    | response r =>
      by_cases hs : r.status < 500
      · simp [retryLoop, h, hs] at ht; exact ht
      · simp only [retryLoop, h, if_neg hs, List.mem_cons] at ht
        rcases ht with ht | ht
        · exact ht
        · exact ih (attempt + 1) t ht
    | timeoutErr =>
      simp only [retryLoop, h, List.mem_cons] at ht
      rcases ht with ht | ht
      · exact ht
      · exact ih (attempt + 1) t ht
    | networkErr =>
      simp only [retryLoop, h, List.mem_cons] at ht
      rcases ht with ht | ht
      · exact ht
      · exact ih (attempt + 1) t ht

/-- The backoff delays slept by the retry loop are strictly increasing, and
every delay from the attempt numbered `attempt` on is at least
`1000 * (attempt + 1)`. -/
theorem retryLoop_delays_increasing (oracle : Nat → AttemptOutcome) (timeoutMs : Nat) :
    ∀ remaining attempt,
      (retryLoop oracle timeoutMs attempt remaining).delays.Chain' (· < ·) ∧
      ∀ d ∈ (retryLoop oracle timeoutMs attempt remaining).delays,
        1000 * (attempt + 1) ≤ d := by
  intro remaining
  induction remaining with
  | zero =>
    intro attempt
    cases h : oracle attempt <;> simp [retryLoop, h]
  | succ n ih =>
    intro attempt
    have step : ((retryLoop oracle timeoutMs (attempt + 1) n).delays.Chain' (· < ·) →
        (1000 * (attempt + 1) ::
          (retryLoop oracle timeoutMs (attempt + 1) n).delays).Chain' (· < ·)) := by
      intro hch
      rw [List.chain'_cons']
      refine ⟨fun b hb => ?_, hch⟩
      have hmem : b ∈ (retryLoop oracle timeoutMs (attempt + 1) n).delays :=
        List.mem_of_mem_head? hb
      have := (ih (attempt + 1)).2 b hmem
      omega
    have bound : ∀ d ∈ 1000 * (attempt + 1) ::
        (retryLoop oracle timeoutMs (attempt + 1) n).delays, 1000 * (attempt + 1) ≤ d := by
      intro d hd
      rcases List.mem_cons.mp hd with hd | hd
      · omega
      · have := (ih (attempt + 1)).2 d hd
        omega
    cases h : oracle attempt with
    | response r =>
      by_cases hs : r.status < 500
      · simp [retryLoop, h, hs]
      · simp only [retryLoop, h, if_neg hs]
        exact ⟨step (ih (attempt + 1)).1, bound⟩
    | timeoutErr =>
      simp only [retryLoop, h]
      exact ⟨step (ih (attempt + 1)).1, bound⟩
    | networkErr =>
      simp only [retryLoop, h]
      exact ⟨step (ih (attempt + 1)).1, bound⟩

/-- An error surfaces from the retry loop only once every allowed attempt
has been made. -/
theorem retryLoop_err_exhausts (oracle : Nat → AttemptOutcome) (timeoutMs : Nat) :
    ∀ remaining attempt b,
      (retryLoop oracle timeoutMs attempt remaining).result = .err b →
      (retryLoop oracle timeoutMs attempt remaining).timeouts.length = remaining + 1 := by
  intro remaining
  induction remaining with
  | zero =>
    intro attempt b hb
    cases h : oracle attempt <;> simp [retryLoop, h]
  | succ n ih =>
    intro attempt b hb
    cases h : oracle attempt with
    | response r =>
      by_cases hs : r.status < 500
      · rw [show retryLoop oracle timeoutMs attempt (n + 1) = ⟨.ok r, [timeoutMs], []⟩ by
          simp [retryLoop, h, hs]] at hb
        exact absurd hb (by simp)
      · simp only [retryLoop, h, if_neg hs] at hb ⊢
        simp only [List.length_cons]
        rw [ih (attempt + 1) b hb]
    | timeoutErr =>
      simp only [retryLoop, h] at hb ⊢
      simp only [List.length_cons]
      rw [ih (attempt + 1) b hb]
    | networkErr =>
      simp only [retryLoop, h] at hb ⊢
      simp only [List.length_cons]
      rw [ih (attempt + 1) b hb]

/-- A first attempt that yields a response with status below 500 is
returned at once: one attempt, no backoff. -/
theorem retryLoop_first_success (oracle : Nat → AttemptOutcome)
    (timeoutMs attempt remaining : Nat) (r : BackendResponse)
    (h : oracle attempt = .response r) (hs : r.status < 500) :
    retryLoop oracle timeoutMs attempt remaining = ⟨.ok r, [timeoutMs], []⟩ := by
  cases remaining <;> simp [retryLoop, h, hs]

/-- Claim C6: buffered forwarding policy.  Every attempt is bounded by the
single timeout parameter (30000 ms at the default call sites); a response
with status below 500 is returned immediately after one attempt with no
retry; at most `retries + 1` attempts (3 at the default `retries = 2`) are
made; the backoff delays between attempts are strictly increasing; an
exception surfaces only after every attempt was used, and `handleRequest`
converts it to the `GATEWAY_TIMEOUT` 504 (timeout) or `BAD_GATEWAY` 502
(other failure) error response rather than a raw exception. -/
theorem forward_retry_policy (oracle : Nat → AttemptOutcome) (timeoutMs retries : Nat) :
    ((retryLoop oracle timeoutMs 0 retries).timeouts.length ≤ retries + 1) ∧
    (∀ t ∈ (retryLoop oracle timeoutMs 0 retries).timeouts, t = timeoutMs) ∧
    (∀ r, oracle 0 = .response r → r.status < 500 →
      retryLoop oracle timeoutMs 0 retries = ⟨.ok r, [timeoutMs], []⟩) ∧
    ((retryLoop oracle timeoutMs 0 retries).delays.Chain' (· < ·)) ∧
    (∀ b, (retryLoop oracle timeoutMs 0 retries).result = .err b →
      (retryLoop oracle timeoutMs 0 retries).timeouts.length = retries + 1) ∧
    (∀ t ∈ (forwardRequestWithRetry oracle).timeouts, t = 30000) ∧
    ((forwardRequestWithRetry oracle).timeouts.length ≤ 3) ∧
    (∀ pathSegments hasSession refreshOutcome oracle₂ p f b,
      (forwardRequestWithRetry oracle).result = .err b →
      handleRequestBuffered pathSegments hasSession oracle refreshOutcome oracle₂ p f =
        jsonErrorResult (if b then "GATEWAY_TIMEOUT" else "BAD_GATEWAY")
          (if b then 504 else 502) 1 0 false) := by
  refine ⟨retryLoop_timeouts_length oracle timeoutMs retries 0,
    fun t ht => retryLoop_timeouts_all oracle timeoutMs retries 0 t ht,
    fun r h hs => retryLoop_first_success oracle timeoutMs 0 retries r h hs,
    (retryLoop_delays_increasing oracle timeoutMs retries 0).1,
    fun b hb => retryLoop_err_exhausts oracle timeoutMs retries 0 b hb,
    fun t ht => retryLoop_timeouts_all oracle 30000 2 0 t ht,
    retryLoop_timeouts_length oracle 30000 2 0,
    fun pathSegments hasSession refreshOutcome oracle₂ p f b hb => ?_⟩
  unfold handleRequestBuffered
  rw [hb]
  cases b <;> rfl

/-- Witness for C6: a backend that always times out exhausts the three
default attempts and surfaces as the 504 gateway error; a backend that
answers 200 at once is never retried. -/
theorem forward_retry_policy_witness :
    ((retryLoop (fun _ => .timeoutErr) 30000 0 2).timeouts.length ≤ 3) ∧
    ((retryLoop (fun _ => .timeoutErr) 30000 0 2).timeouts.length = 3) ∧
    (retryLoop (fun _ => .response ⟨200, [], "ok"⟩) 30000 0 2 =
      ⟨.ok ⟨200, [], "ok"⟩, [30000], []⟩) ∧
    ((retryLoop (fun _ => .timeoutErr) 30000 0 2).delays.Chain' (· < ·)) ∧
    (handleRequestBuffered ["users"] false (fun _ => .timeoutErr) none
        (fun _ => .timeoutErr) true true =
      jsonErrorResult "GATEWAY_TIMEOUT" 504 1 0 false) := by
  have h₁ := forward_retry_policy (fun _ => .timeoutErr) 30000 2
  have h₂ := forward_retry_policy (fun _ => .response ⟨200, [], "ok"⟩) 30000 2
  refine ⟨h₁.1, h₁.2.2.2.2.1 true rfl, h₂.2.2.1 ⟨200, [], "ok"⟩ rfl (by decide),
    h₁.2.2.2.1, ?_⟩
  have := h₁.2.2.2.2.2.2.2 ["users"] false none (fun _ => .timeoutErr) true true true rfl
  simpa using this

/-- Claim C3 counterexample: `refreshAccessToken` consults no shared
in-flight state, so two concurrent requests that both need a refresh each
invoke the backend refresh endpoint — two backend calls, not at most one. -/
theorem refresh_dedup_claim_false :
    ¬ (twoConcurrentRefreshes (some ⟨"AT2", "RT2"⟩) (some ⟨"AT3", "RT3"⟩)
        ⟨0⟩).backendRefreshCalls ≤ 1 := by
  decide

/-- Claim C3 amended: there is no deduplication of concurrent refreshes in
the proxy: every caller of `refreshAccessToken` performs its own backend
refresh call, so two concurrent refresh operations always add exactly two
backend calls, whatever the process state. -/
theorem refresh_no_dedup_two_calls (outcome₁ outcome₂ : Option RefreshResponse)
    (st : RefreshProcessState) :
    (twoConcurrentRefreshes outcome₁ outcome₂ st).backendRefreshCalls =
      st.backendRefreshCalls + 2 :=
  rfl

/-- Claim C4: the sign-out special case runs only when the backend response
is ok (`fullPath === SIGN_OUT_ENDPOINT && response.ok`), so a backend 500
on sign-out leaves the session cookie in place — the deletion is not
unconditional; with a 200 the cookie is deleted. -/
theorem signout_cookie_survives_backend_failure :
    (handleRequestBuffered ["auth", "sign-out"] true
        (fun _ => .response ⟨500, [], "err"⟩) none
        (fun _ => .response ⟨500, [], "err"⟩) true true).cookieDeleted = false ∧
    (handleRequestBuffered ["auth", "sign-out"] true
        (fun _ => .response ⟨500, [], "err"⟩) none
        (fun _ => .response ⟨500, [], "err"⟩) true true).status = 500 ∧
    (handleRequestBuffered ["auth", "sign-out"] true
        (fun _ => .response ⟨200, [], "bye"⟩) none
        (fun _ => .response ⟨200, [], "bye"⟩) true true).cookieDeleted = true := by
  refine ⟨?_, ?_, ?_⟩ <;> rfl

/-- Claim C5 counterexample: a streaming upload answered 401 with a session
present does not always yield the upload-specific error: when the
interposed refresh call fails, the proxy answers with the
`TOKEN_REFRESH_FAILED` 401 instead of `UPLOAD_AUTH_EXPIRED`. -/
theorem streaming401_upload_error_claim_false :
    (handleStreamingRequest ⟨401, [], ""⟩ true none).errorCode =
      some "TOKEN_REFRESH_FAILED" ∧
    ¬ (handleStreamingRequest ⟨401, [], ""⟩ true none).errorCode =
      some "UPLOAD_AUTH_EXPIRED" := by
  refine ⟨rfl, by decide⟩

/-- Claim C5 amended: on a streaming upload answered 401 with a session
present the proxy responds 401 and the streaming forward runs exactly once
(never replayed); the upload-specific `UPLOAD_AUTH_EXPIRED` error is
returned when the interposed refresh call succeeds, while a failed refresh
yields the `TOKEN_REFRESH_FAILED` 401 and deletes the session cookie. -/
theorem streaming401_single_forward (r : BackendResponse)
    (refreshOutcome : Option RefreshResponse) (h : r.status = 401) :
    (handleStreamingRequest r true refreshOutcome).status = 401 ∧
    (handleStreamingRequest r true refreshOutcome).forwardCalls = 1 ∧
    (∀ rr, refreshOutcome = some rr →
      (handleStreamingRequest r true refreshOutcome).errorCode =
        some "UPLOAD_AUTH_EXPIRED") ∧
    (refreshOutcome = none →
      (handleStreamingRequest r true refreshOutcome).errorCode =
        some "TOKEN_REFRESH_FAILED" ∧
      (handleStreamingRequest r true refreshOutcome).cookieDeleted = true) := by
  cases refreshOutcome with
  | none => simp [handleStreamingRequest, h, jsonErrorResult]
  | some rr => simp [handleStreamingRequest, h, jsonErrorResult]

/-- Witness for the amended C5 at both refresh outcomes. -/
theorem streaming401_single_forward_witness :
    (handleStreamingRequest ⟨401, [], ""⟩ true (some ⟨"AT2", "RT2"⟩)).errorCode =
      some "UPLOAD_AUTH_EXPIRED" ∧
    (handleStreamingRequest ⟨401, [], ""⟩ true (some ⟨"AT2", "RT2"⟩)).forwardCalls = 1 ∧
    (handleStreamingRequest ⟨401, [], ""⟩ true none).cookieDeleted = true := by
  have h₁ := streaming401_single_forward ⟨401, [], ""⟩ (some ⟨"AT2", "RT2"⟩) rfl
  have h₂ := streaming401_single_forward ⟨401, [], ""⟩ none rfl
  exact ⟨h₁.2.2.1 ⟨"AT2", "RT2"⟩ rfl, h₁.2.1, (h₂.2.2.2 rfl).2⟩

/-- Claim C8: an empty catch-all segment list is not rejected: `fullPath`
becomes `/` and the request is forwarded to the backend root; the proxy
answers with the backend's status (here 200), not 400. -/
theorem empty_path_forwarded_not_rejected :
    fullPathOf [] = "/" ∧
    (handleRequestBuffered [] false (fun _ => .response ⟨200, [], "ok"⟩) none
        (fun _ => .response ⟨200, [], "ok"⟩) true true).forwardCalls = 1 ∧
    (handleRequestBuffered [] false (fun _ => .response ⟨200, [], "ok"⟩) none
        (fun _ => .response ⟨200, [], "ok"⟩) true true).status = 200 := by
  refine ⟨rfl, rfl, rfl⟩

/-- Claim C9 counterexample: a binary (octet-stream) backend response is
streamed with `createStreamingResponse`, which copies the headers without
deleting anything — `content-length`, `content-encoding` and
`transfer-encoding` all survive into the client response. -/
theorem binary_headers_not_stripped :
    isBinaryResponse ⟨200, [("content-type", "application/octet-stream"),
      ("content-length", "5"), ("content-encoding", "gzip"),
      ("transfer-encoding", "chunked")], "BYTES"⟩ = true ∧
    headersGet (respondForBackend ⟨200, [("content-type", "application/octet-stream"),
      ("content-length", "5"), ("content-encoding", "gzip"),
      ("transfer-encoding", "chunked")], "BYTES"⟩).headers "content-length" =
      some "5" ∧
    headersGet (respondForBackend ⟨200, [("content-type", "application/octet-stream"),
      ("content-length", "5"), ("content-encoding", "gzip"),
      ("transfer-encoding", "chunked")], "BYTES"⟩).headers "content-encoding" =
      some "gzip" ∧
    headersGet (respondForBackend ⟨200, [("content-type", "application/octet-stream"),
      ("content-length", "5"), ("content-encoding", "gzip"),
      ("transfer-encoding", "chunked")], "BYTES"⟩).headers "transfer-encoding" =
      some "chunked" := by
  refine ⟨by decide, by decide, by decide, by decide⟩

/-- Claim C9 amended: a backend response classified as binary/streaming is
passed through completely unchanged — status, body bytes and *all* headers,
including `content-length`, `content-encoding` and `transfer-encoding`
(the stripping of those three happens only on the buffered text path). -/
theorem binary_response_passthrough (r : BackendResponse)
    (h : isBinaryResponse r = true) :
    respondForBackend r = r := by
  cases r with
  | mk status headers body =>
    unfold respondForBackend
    rw [if_pos h]
    rfl

/-- Witness for the amended C9 at a concrete image download. -/
theorem binary_response_passthrough_witness :
    respondForBackend ⟨200, [("content-type", "image/png"),
      ("content-length", "7")], "PNGDATA"⟩ =
    ⟨200, [("content-type", "image/png"), ("content-length", "7")], "PNGDATA"⟩ :=
  binary_response_passthrough
    ⟨200, [("content-type", "image/png"), ("content-length", "7")], "PNGDATA"⟩
    (by decide)

/-- Lemma: `handleTokenRefresh` performs exactly one backend refresh call on every
path. -/
theorem handleTokenRefresh_refreshCalls (refreshOutcome : Option RefreshResponse)
    (retryOracle : Nat → AttemptOutcome) :
    (handleTokenRefresh refreshOutcome retryOracle).refreshCalls = 1 := by
  cases refreshOutcome with
  | none => rfl
  | some rr =>
    unfold handleTokenRefresh
    cases hr : (forwardRequestWithRetry retryOracle).result <;>
      simp [hr, jsonErrorResult]

/-- The tail of `handleRequest` never adds forward or refresh calls. -/
theorem applyProxyTail_counts (fullPath : String) (cur : ProxyResult) (p f : Bool) :
    (applyProxyTail fullPath cur p f).refreshCalls = cur.refreshCalls ∧
    (applyProxyTail fullPath cur p f).forwardCalls = cur.forwardCalls := by
  unfold applyProxyTail
  repeat' split
  all_goals exact ⟨rfl, rfl⟩

/-- On a non-ok current response the tail of `handleRequest` skips both
special endpoints and only re-wraps headers and body. -/
theorem applyProxyTail_not_ok (fullPath : String) (cur : ProxyResult) (p f : Bool)
    (h : responseOk cur.status = false) :
    applyProxyTail fullPath cur p f =
      { cur with
          headers := (respondForBackend ⟨cur.status, cur.headers, cur.body⟩).headers,
          body := (respondForBackend ⟨cur.status, cur.headers, cur.body⟩).body } := by
  unfold applyProxyTail
  rw [h]
  simp

/-- After a successful refresh the retried forward's returned response is
what flows on: its status is preserved, one refresh and two forwards were
made. -/
theorem handleTokenRefresh_ok (rr : RefreshResponse)
    (retryOracle : Nat → AttemptOutcome) (r₂ : BackendResponse)
    (h : (forwardRequestWithRetry retryOracle).result = .ok r₂) :
    (handleTokenRefresh (some rr) retryOracle).status = r₂.status ∧
    (handleTokenRefresh (some rr) retryOracle).refreshCalls = 1 ∧
    (handleTokenRefresh (some rr) retryOracle).forwardCalls = 2 := by
  unfold handleTokenRefresh
  rw [h]
  exact ⟨rfl, rfl, rfl⟩

/-- Claim C10: a buffered request performs at most one token refresh; and
when the first forward yields 401 with a session, the refresh succeeds and
the retried forward itself returns 401 again, that 401 is handed to the
client as-is — still exactly one refresh call and two forwards, never a
second refresh. -/
theorem buffered_refresh_at_most_once (pathSegments : List String) (hasSession : Bool)
    (oracle₁ : Nat → AttemptOutcome) (refreshOutcome : Option RefreshResponse)
    (oracle₂ : Nat → AttemptOutcome) (p f : Bool) :
    (handleRequestBuffered pathSegments hasSession oracle₁ refreshOutcome oracle₂
        p f).refreshCalls ≤ 1 ∧
    (∀ resp rr r₂,
      (forwardRequestWithRetry oracle₁).result = .ok resp → resp.status = 401 →
      hasSession = true → refreshOutcome = some rr →
      (forwardRequestWithRetry oracle₂).result = .ok r₂ → r₂.status = 401 →
      (handleRequestBuffered pathSegments hasSession oracle₁ refreshOutcome oracle₂
          p f).status = 401 ∧
      (handleRequestBuffered pathSegments hasSession oracle₁ refreshOutcome oracle₂
          p f).refreshCalls = 1 ∧
      (handleRequestBuffered pathSegments hasSession oracle₁ refreshOutcome oracle₂
          p f).forwardCalls = 2) := by
  constructor
  · unfold handleRequestBuffered
    cases h1 : (forwardRequestWithRetry oracle₁).result with
    | err b => cases b <;> simp [jsonErrorResult]
    | ok resp =>
      rw [(applyProxyTail_counts _ _ p f).1]
      split
      · rw [handleTokenRefresh_refreshCalls]
      · simp
  · intro resp rr r₂ h1 hst hses hro h2 hst2
    subst hses
    subst hro
    have hrw : handleRequestBuffered pathSegments true oracle₁ (some rr) oracle₂ p f =
        applyProxyTail (fullPathOf pathSegments)
          (handleTokenRefresh (some rr) oracle₂) p f := by
      simp [handleRequestBuffered, h1, hst]
    obtain ⟨hs, hc, hf⟩ := handleTokenRefresh_ok rr oracle₂ r₂ h2
    have hok : responseOk (handleTokenRefresh (some rr) oracle₂).status = false := by
      rw [hs, hst2]
      rfl
    rw [hrw, applyProxyTail_not_ok _ _ p f hok]
    exact ⟨hs.trans hst2, hc, hf⟩

/-- Witness for C10: a 401 first forward, a successful refresh, and a 401
retried forward. -/
theorem buffered_refresh_at_most_once_witness :
    (handleRequestBuffered ["users"] true (fun _ => .response ⟨401, [], "x"⟩)
        (some ⟨"AT2", "RT2"⟩) (fun _ => .response ⟨401, [], "y"⟩) true true).status = 401 ∧
    (handleRequestBuffered ["users"] true (fun _ => .response ⟨401, [], "x"⟩)
        (some ⟨"AT2", "RT2"⟩) (fun _ => .response ⟨401, [], "y"⟩) true true).refreshCalls = 1 ∧
    (handleRequestBuffered ["users"] true (fun _ => .response ⟨401, [], "x"⟩)
        (some ⟨"AT2", "RT2"⟩) (fun _ => .response ⟨401, [], "y"⟩) true true).forwardCalls = 2 := by
  have h := buffered_refresh_at_most_once ["users"] true
    (fun _ => .response ⟨401, [], "x"⟩) (some ⟨"AT2", "RT2"⟩)
    (fun _ => .response ⟨401, [], "y"⟩) true true
  exact h.2 ⟨401, [], "x"⟩ ⟨"AT2", "RT2"⟩ ⟨401, [], "y"⟩ rfl rfl rfl rfl rfl rfl

end ApiProxy
